import Mathlib

/-! MQTT publishing feeds (`MQTT_publishing_feeds.h`)

The header holds one declaration,

    Adafruit_MQTT_Publish Pond_Sensor = Adafruit_MQTT_Publish(&thingspeak,
                                         "channels/" TS_POND_CHANNEL_ID "/publish");

whose second argument is three adjacent string literals. The compiler joins
adjacent string literals into one literal whose contents are the contents of
the parts, in order (`++` on `String`), and stores it as a character array
that ends with a terminating NUL (`literalArray`). The constructor receives a
`const char *` to the start of that array; the string such a pointer denotes
is the run of characters before the first NUL (`cString`). The contents of a
literal may themselves hold a NUL (written `\0` in the header's language), and
then the string the handle sees stops there.

The two names the header uses without defining them, the client `thingspeak`
and the preprocessor constant `TS_POND_CHANNEL_ID`, are parameters of the
embedding: the client ranges over an arbitrary type of client references, the
constant over the contents of a string literal. A `Char` stands for one
character of the literal.
-/

namespace MQTTPublishingFeeds

/-- The NUL character, which terminates a string in memory. -/
def NUL : Char := '\x00'

/-- The character array a string literal with the given contents denotes: the contents
followed by the terminating NUL the compiler appends. -/
def literalArray (contents : String) : List Char :=
  contents.toList ++ [NUL]

/-- The string a `const char *` to the start of a character array denotes: the
characters before the first NUL. -/
def cString (array : List Char) : String :=
  String.mk (array.takeWhile (fun ch => ch != NUL))

/-- Modelled from the spec: the feed handle type of the external MQTT library, which the
header uses but does not declare. The spec gives it two attributes, the borrowed client
reference and the topic string, and describes its construction as
`Publish(clientRef, topicString) -> FeedHandle`, with no validation and no error path.
The structure constructor `Adafruit_MQTT_Publish.mk` stands for that two-argument
constructor call. -/
structure Adafruit_MQTT_Publish (Client : Type) where
  /-- The client reference the handle was constructed with (first argument). -/
  mqtt : Client
  /-- The topic string the handle was constructed with (second argument): the string
  the `const char *` argument denotes. -/
  topic : String
  deriving DecidableEq

/-- The declaration of lines 13-14: the handle `Pond_Sensor` is the result of the
constructor call on the reference to `thingspeak` and on the pointer to the literal
obtained by joining `"channels/"`, the expansion of `TS_POND_CHANNEL_ID` and
`"/publish"`. -/
def Pond_Sensor {Client : Type} (thingspeak : Client) (TS_POND_CHANNEL_ID : String) :
    Adafruit_MQTT_Publish Client :=
  Adafruit_MQTT_Publish.mk thingspeak
    (cString (literalArray ("channels/" ++ TS_POND_CHANNEL_ID ++ "/publish")))

/-! ## Notions the stated properties use

These are not part of the header; they give the words of the properties
(splitting a topic on the separator, counting separators, a trailing separator,
cutting the fixed head and tail off a topic) a meaning on the character
sequence of a string. -/

/-- The segments of a topic: its character sequence split at every `'/'`. -/
def segments (t : String) : List String :=
  (t.toList.splitOn '/').map String.mk

/-- The number of `'/'` characters of a topic. -/
def slashCount (t : String) : Nat :=
  t.toList.count '/'

/-- A topic ends with a slash when its last character exists and is `'/'`. -/
def endsWithSlash (t : String) : Prop :=
  t.toList.getLast? = some '/'

instance (t : String) : Decidable (endsWithSlash t) := by
  unfold endsWithSlash
  infer_instance

/-- The channel ID read back from a topic: the first 9 characters (the length of
`"channels/"`) and the last 8 characters (the length of `"/publish"`) are removed. -/
def recoverChannelId (t : String) : String :=
  String.mk ((t.toList.drop 9).rdrop 8)

/-! ## Helper lemmas -/

/-- Two strings with the same character sequence are equal. -/
theorem string_eq_of_toList_eq {s t : String} (h : s.toList = t.toList) : s = t := by
  cases s; cases t; simp only [String.toList] at h; rw [h]

/-- The string read from the array of a literal without NUL is the literal's contents. -/
theorem cString_literalArray (s : String) (hz : NUL ∉ s.toList) :
    cString (literalArray s) = s := by
  apply string_eq_of_toList_eq
  have hp : ∀ a ∈ s.toList, (fun ch => ch != NUL) a = true := by
    intro a ha
    simp only [bne_iff_ne, ne_eq]
    intro h
    exact hz (h ▸ ha)
  show List.takeWhile (fun ch => ch != NUL) (s.toList ++ [NUL]) = s.toList
  rw [List.takeWhile_append_of_pos hp]
  simp [List.takeWhile]

/-- The character sequence of the joined literal. -/
theorem joined_toList (C : String) :
    ("channels/" ++ C ++ "/publish").toList =
      "channels/".toList ++ C.toList ++ "/publish".toList := by
  simp [String.toList]

/-- The joined literal has no NUL when the channel ID has none. -/
theorem joined_nul_free (C : String) (hz : NUL ∉ C.toList) :
    NUL ∉ ("channels/" ++ C ++ "/publish").toList := by
  rw [joined_toList]
  simp only [List.mem_append, not_or]
  exact ⟨⟨by decide, hz⟩, by decide⟩

/-- The topic of `Pond_Sensor` for a channel ID without NUL is the joined literal. -/
theorem topic_of_nul_free {Client : Type} (c : Client) (C : String) (hz : NUL ∉ C.toList) :
    (Pond_Sensor c C).topic = "channels/" ++ C ++ "/publish" :=
  cString_literalArray _ (joined_nul_free C hz)

/-- The character sequence of the topic of `Pond_Sensor`, for a channel ID without NUL. -/
theorem topic_toList {Client : Type} (c : Client) (C : String) (hz : NUL ∉ C.toList) :
    (Pond_Sensor c C).topic.toList = "channels/".toList ++ C.toList ++ "/publish".toList := by
  rw [topic_of_nul_free c C hz, joined_toList]

/-- The topic as the separator-joined list of its three parts. -/
theorem topic_toList_intercalate {Client : Type} (c : Client) (C : String)
    (hz : NUL ∉ C.toList) :
    (Pond_Sensor c C).topic.toList =
      ['/'].intercalate ["channels".toList, C.toList, "publish".toList] := by
  rw [topic_toList c C hz]
  simp [List.intercalate, String.toList]

/-- Splitting the topic at the separator, for a channel ID without separator and NUL. -/
theorem topic_splitOn {Client : Type} (c : Client) (C : String) (hs : '/' ∉ C.toList)
    (hz : NUL ∉ C.toList) :
    (Pond_Sensor c C).topic.toList.splitOn '/' =
      ["channels".toList, C.toList, "publish".toList] := by
  rw [topic_toList_intercalate c C hz]
  apply List.splitOn_intercalate
  · intro l hl
    simp only [List.mem_cons, List.mem_singleton, List.not_mem_nil, or_false] at hl
    rcases hl with h | h | h
    · subst h; decide
    · subst h; exact hs
    · subst h; decide
  · simp

/-- The length of the topic of `Pond_Sensor`, for a channel ID without NUL. -/
theorem topic_length {Client : Type} (c : Client) (C : String) (hz : NUL ∉ C.toList) :
    (Pond_Sensor c C).topic.length = C.length + 17 := by
  have h : (Pond_Sensor c C).topic.toList.length =
      ("channels/".toList ++ C.toList ++ "/publish".toList).length :=
    congrArg List.length (topic_toList c C hz)
  have h9 : "channels/".toList.length = 9 := by decide
  have h8 : "/publish".toList.length = 8 := by decide
  rw [List.length_append, List.length_append, h9, h8] at h
  show (Pond_Sensor c C).topic.toList.length = C.toList.length + 17
  omega

/-! ## The properties -/

/-- C1, as amended: for every non-empty channel ID `C` without a NUL character, the
topic of the feed handle built from `C` is exactly `"channels/" ++ C ++ "/publish"`. -/
theorem Pond_Sensor_topic_eq {Client : Type} (c : Client) (C : String) (_hC : C ≠ "")
    (hz : NUL ∉ C.toList) :
    (Pond_Sensor c C).topic = "channels/" ++ C ++ "/publish" :=
  topic_of_nul_free c C hz

/-- C1 at the channel ID `"12345"`: the topic is `"channels/12345/publish"`. -/
theorem Pond_Sensor_topic_eq_witness :
    "12345" ≠ "" ∧ NUL ∉ "12345".toList ∧
      (Pond_Sensor (0 : Nat) "12345").topic = "channels/12345/publish" :=
  ⟨by decide, by decide, Pond_Sensor_topic_eq (0 : Nat) "12345" (by decide) (by decide)⟩

/-- C1 as first stated fails at the non-empty channel ID with the four characters
`1`, `2`, NUL, `a`: the topic the handle sees is `"channels/12"`, which is not the
concatenation of `"channels/"`, the ID and `"/publish"`. -/
theorem Pond_Sensor_topic_eq_counterexample :
    "12\x00a".toList = ['1', '2', NUL, 'a'] ∧ "12\x00a" ≠ "" ∧
      (Pond_Sensor (0 : Nat) "12\x00a").topic = "channels/12" ∧
      (Pond_Sensor (0 : Nat) "12\x00a").topic ≠ "channels/" ++ "12\x00a" ++ "/publish" := by
  decide

/-- C2: constructing the feed handle twice from the same client reference and the same
channel ID gives equal topic strings. -/
theorem Pond_Sensor_topic_idempotent {Client : Type} (c₁ c₂ : Client) (C₁ C₂ : String)
    (hc : c₁ = c₂) (hC : C₁ = C₂) :
    (Pond_Sensor c₁ C₁).topic = (Pond_Sensor c₂ C₂).topic := by
  subst hc hC
  rfl

/-- C2 at the client reference `7` and the channel ID `"12345"`. -/
theorem Pond_Sensor_topic_idempotent_witness :
    (7 : Nat) = 7 ∧ "12345" = "12345" ∧
      (Pond_Sensor (7 : Nat) "12345").topic = (Pond_Sensor (7 : Nat) "12345").topic :=
  ⟨rfl, rfl, Pond_Sensor_topic_idempotent (7 : Nat) 7 "12345" "12345" rfl rfl⟩

/-- C3, as amended: construction is total and unvalidated. For every channel ID the
declaration yields a handle, never an error, and for every channel ID without a NUL
character, with no other condition on it, the topic of that handle is
`"channels/" ++ C ++ "/publish"`; this covers the empty ID and IDs holding a slash, a
space or the MQTT wildcards. -/
theorem Pond_Sensor_no_validation {Client : Type} (c : Client) :
    (∀ C : String, ∃ h : Adafruit_MQTT_Publish Client, Pond_Sensor c C = h ∧
        (NUL ∉ C.toList → h.topic = "channels/" ++ C ++ "/publish")) ∧
      (Pond_Sensor c "").topic = "channels//publish" ∧
      (Pond_Sensor c "12/34").topic = "channels/12/34/publish" ∧
      (Pond_Sensor c "12 34").topic = "channels/12 34/publish" ∧
      (Pond_Sensor c "+/#").topic = "channels/+/#/publish" :=
  ⟨fun C => ⟨Pond_Sensor c C, rfl, topic_of_nul_free c C⟩,
    topic_of_nul_free c "" (by decide), topic_of_nul_free c "12/34" (by decide),
    topic_of_nul_free c "12 34" (by decide), topic_of_nul_free c "+/#" (by decide)⟩

/-- C3 at the malformed channel ID `"12/34"`, which has no NUL character. -/
theorem Pond_Sensor_no_validation_witness :
    NUL ∉ "12/34".toList ∧
      ∃ h : Adafruit_MQTT_Publish Nat, Pond_Sensor (0 : Nat) "12/34" = h ∧
        h.topic = "channels/12/34/publish" :=
  ⟨by decide,
    match (Pond_Sensor_no_validation (0 : Nat)).1 "12/34" with
    | ⟨h, he, ht⟩ => ⟨h, he, ht (by decide)⟩⟩

/-- C3 as first stated fails: not every channel ID gives the topic
`"channels/" ++ C ++ "/publish"`. At the malformed ID with the characters `1`, `2`,
NUL, `a` the handle is built without error and its topic is `"channels/12"`. -/
theorem Pond_Sensor_no_validation_counterexample :
    (Pond_Sensor (0 : Nat) "12\x00a").topic = "channels/12" ∧
      ¬ (∀ C : String, ∃ h : Adafruit_MQTT_Publish Nat,
          Pond_Sensor (0 : Nat) C = h ∧ h.topic = "channels/" ++ C ++ "/publish") := by
  refine ⟨by decide, fun hall => ?_⟩
  obtain ⟨h, he, ht⟩ := hall "12\x00a"
  subst he
  revert ht
  decide

/-- C4: the handle built from a client reference `c` and a channel ID `C` holds exactly
`c` as its client reference, and `Pond_Sensor` is the handle the constructor returns
for the client reference and the string its pointer argument denotes, which for a
channel ID without a NUL character is the joined topic literal. -/
theorem Pond_Sensor_holds_client {Client : Type} (c : Client) (C : String) :
    (Pond_Sensor c C).mqtt = c ∧
      Pond_Sensor c C = Adafruit_MQTT_Publish.mk c
        (cString (literalArray ("channels/" ++ C ++ "/publish"))) ∧
      (NUL ∉ C.toList →
        Pond_Sensor c C = Adafruit_MQTT_Publish.mk c ("channels/" ++ C ++ "/publish")) :=
  ⟨rfl, rfl, fun hz => congrArg (Adafruit_MQTT_Publish.mk c) (topic_of_nul_free c C hz)⟩

/-- C4 at the client reference `7` and the channel ID `"12345"`. -/
theorem Pond_Sensor_holds_client_witness :
    NUL ∉ "12345".toList ∧ (Pond_Sensor (7 : Nat) "12345").mqtt = 7 ∧
      Pond_Sensor (7 : Nat) "12345" = Adafruit_MQTT_Publish.mk 7 "channels/12345/publish" :=
  ⟨by decide, (Pond_Sensor_holds_client (7 : Nat) "12345").1,
    (Pond_Sensor_holds_client (7 : Nat) "12345").2.2 (by decide)⟩

/-- C5, as amended: the topic follows the path grammar `channels/<CHANNEL_ID>/publish`.
For every non-empty channel ID `C` without a slash and without a NUL character, splitting
the topic on the slash gives exactly the three segments `"channels"`, `C`, `"publish"`,
and the topic has exactly two slashes; for every channel ID without a NUL character the
topic does not end with a slash. -/
theorem Pond_Sensor_topic_grammar {Client : Type} (c : Client) :
    (∀ C : String, C ≠ "" → '/' ∉ C.toList → NUL ∉ C.toList →
        segments (Pond_Sensor c C).topic = ["channels", C, "publish"] ∧
          slashCount (Pond_Sensor c C).topic = 2) ∧
      (∀ C : String, NUL ∉ C.toList → ¬ endsWithSlash (Pond_Sensor c C).topic) := by
  refine ⟨fun C _ hs hz => ⟨?_, ?_⟩, fun C hz => ?_⟩
  · simp only [segments, topic_splitOn c C hs hz]
    rfl
  · simp only [slashCount, topic_toList c C hz, List.count_append,
      List.count_eq_zero.mpr hs]
    decide
  · simp only [endsWithSlash, topic_toList c C hz]
    rw [List.getLast?_append_of_ne_nil _ (by decide)]
    decide

/-- C5 at the channel ID `"12345"`: three segments, two slashes, no trailing slash. -/
theorem Pond_Sensor_topic_grammar_witness :
    "12345" ≠ "" ∧ '/' ∉ "12345".toList ∧ NUL ∉ "12345".toList ∧
      (segments (Pond_Sensor (0 : Nat) "12345").topic = ["channels", "12345", "publish"] ∧
        slashCount (Pond_Sensor (0 : Nat) "12345").topic = 2) ∧
      ¬ endsWithSlash (Pond_Sensor (0 : Nat) "12345").topic :=
  ⟨by decide, by decide, by decide,
    (Pond_Sensor_topic_grammar (0 : Nat)).1 "12345" (by decide) (by decide) (by decide),
    (Pond_Sensor_topic_grammar (0 : Nat)).2 "12345" (by decide)⟩

/-- C5 as first stated fails. At the channel ID with the two characters `1`, NUL, which
is non-empty and has no slash, the topic is `"channels/1"`, with the two segments
`"channels"`, `"1"` and one slash; at the channel ID with the single character NUL the
topic is `"channels/"`, which ends with a slash. -/
theorem Pond_Sensor_topic_grammar_counterexample :
    "1\x00".toList = ['1', NUL] ∧ "1\x00" ≠ "" ∧ '/' ∉ "1\x00".toList ∧
      (Pond_Sensor (0 : Nat) "1\x00").topic = "channels/1" ∧
      segments (Pond_Sensor (0 : Nat) "1\x00").topic = ["channels", "1"] ∧
      segments (Pond_Sensor (0 : Nat) "1\x00").topic ≠ ["channels", "1\x00", "publish"] ∧
      slashCount (Pond_Sensor (0 : Nat) "1\x00").topic = 1 ∧
      "\x00".toList = [NUL] ∧
      (Pond_Sensor (0 : Nat) "\x00").topic = "channels/" ∧
      endsWithSlash (Pond_Sensor (0 : Nat) "\x00").topic := by
  decide

/-- C6, as amended: the topic is injective in the channel ID on channel IDs without a
NUL character. If the topics built from two such channel IDs are equal, the channel IDs
are equal. -/
theorem Pond_Sensor_topic_injective {Client : Type} (c : Client) (C₁ C₂ : String)
    (hz₁ : NUL ∉ C₁.toList) (hz₂ : NUL ∉ C₂.toList)
    (h : (Pond_Sensor c C₁).topic = (Pond_Sensor c C₂).topic) : C₁ = C₂ := by
  have hl := congrArg String.toList h
  rw [topic_toList c C₁ hz₁, topic_toList c C₂ hz₂] at hl
  exact string_eq_of_toList_eq
    (List.append_cancel_left (List.append_cancel_right hl))

/-- C6 at two channel IDs with equal topics, both `"12345"`. -/
theorem Pond_Sensor_topic_injective_witness :
    NUL ∉ "12345".toList ∧
      (Pond_Sensor (0 : Nat) "12345").topic = (Pond_Sensor (0 : Nat) "12345").topic ∧
      "12345" = "12345" :=
  ⟨by decide, rfl,
    Pond_Sensor_topic_injective (0 : Nat) "12345" "12345" (by decide) (by decide) rfl⟩

/-- C6 as first stated fails: the two different channel IDs with the characters `1`, `2`,
NUL, `a` and `1`, `2`, NUL, `b` give the same topic, `"channels/12"`. -/
theorem Pond_Sensor_topic_injective_counterexample :
    "12\x00a" ≠ "12\x00b" ∧
      (Pond_Sensor (0 : Nat) "12\x00a").topic = "channels/12" ∧
      (Pond_Sensor (0 : Nat) "12\x00b").topic = "channels/12" ∧
      (Pond_Sensor (0 : Nat) "12\x00a").topic = (Pond_Sensor (0 : Nat) "12\x00b").topic := by
  decide

/-- C7, as amended: the channel ID is recovered from the topic, for every channel ID
without a NUL character. The topic starts with the 9 characters of `"channels/"` and
ends with the 8 characters of `"/publish"`; removing the first 9 and the last 8
characters returns the channel ID, and the length of the topic is the length of the
channel ID plus 17. -/
theorem Pond_Sensor_topic_roundtrip {Client : Type} (c : Client) (C : String)
    (hz : NUL ∉ C.toList) :
    "channels/".length = 9 ∧ "/publish".length = 8 ∧
      "channels/".toList <+: (Pond_Sensor c C).topic.toList ∧
      "/publish".toList <:+ (Pond_Sensor c C).topic.toList ∧
      recoverChannelId (Pond_Sensor c C).topic = C ∧
      (Pond_Sensor c C).topic.length = C.length + 17 := by
  refine ⟨by decide, by decide, ?_, ?_, ?_, topic_length c C hz⟩
  · rw [topic_toList c C hz, List.append_assoc]
    exact List.prefix_append _ _
  · rw [topic_toList c C hz]
    exact List.suffix_append _ _
  · apply string_eq_of_toList_eq
    simp only [recoverChannelId, topic_toList c C hz, List.append_assoc]
    rw [List.drop_left' (by decide), List.rdrop_eq_reverse_drop_reverse,
      List.reverse_append, List.drop_left' (by decide), List.reverse_reverse]
    rfl

/-- C7 at the channel ID `"12345"`: the ID is read back and the topic has length 22. -/
theorem Pond_Sensor_topic_roundtrip_witness :
    NUL ∉ "12345".toList ∧
      recoverChannelId (Pond_Sensor (0 : Nat) "12345").topic = "12345" ∧
      (Pond_Sensor (0 : Nat) "12345").topic.length = 22 :=
  ⟨by decide, (Pond_Sensor_topic_roundtrip (0 : Nat) "12345" (by decide)).2.2.2.2.1,
    (Pond_Sensor_topic_roundtrip (0 : Nat) "12345" (by decide)).2.2.2.2.2⟩

/-- C7 as first stated fails at the channel ID with the four characters `1`, `2`, NUL,
`a`: the topic is `"channels/12"`, of length 11 and not 4 + 17, and removing its first 9
and last 8 characters leaves the empty string, not the channel ID. -/
theorem Pond_Sensor_topic_roundtrip_counterexample :
    "12\x00a".length = 4 ∧
      (Pond_Sensor (0 : Nat) "12\x00a").topic = "channels/12" ∧
      (Pond_Sensor (0 : Nat) "12\x00a").topic.length = 11 ∧
      (Pond_Sensor (0 : Nat) "12\x00a").topic.length ≠ "12\x00a".length + 17 ∧
      recoverChannelId (Pond_Sensor (0 : Nat) "12\x00a").topic = "" ∧
      recoverChannelId (Pond_Sensor (0 : Nat) "12\x00a").topic ≠ "12\x00a" := by
  decide

end MQTTPublishingFeeds
